import Mathlib

/-!
# tag-service: dispatch, gateway error mapping, registration and discovery

A shallow embedding of `main.go`, `server/tag.go`, `client/client.go` and
`client/3_11/client.go`.  Go strings are embedded as Lean strings, handlers as
state-passing functions, and library calls whose outcome the program branches
on (the coordination store client, the downstream API, the JSON decoder) as
explicit inputs.
-/

namespace TagService

/-! ## Go standard library: `strings`, `net/http` -/

/-- Go `strings.Contains` on character lists: scan every start position of
`s` and test whether `substr` begins there. -/
def containsChars (substr : List Char) : List Char → Bool
  | [] => substr.isEmpty
  | c :: t => substr.isPrefixOf (c :: t) || containsChars substr t

/-- Go `strings.Contains(s, substr)`. -/
def strings.Contains (s substr : String) : Bool :=
  containsChars substr.data s.data

/-- Go `http.Header`, a map from canonical header names to their values. -/
abbrev Header := List (String × List String)

/-- Go `Header.Get`: the first value stored under `key`, or the empty string.
The key used by the program, `Content-Type`, is already in canonical form. -/
def Header.Get (h : Header) (key : String) : String :=
  match h.lookup key with
  | some (v :: _) => v
  | _ => ""

/-- The fields of `*http.Request` that the multiplexer reads. -/
structure Request where
  ProtoMajor : Int
  Header : Header

/-- An `http.Handler`, as a function on the state `σ` of the response writer. -/
abbrev Handler (σ : Type) := σ → Request → σ

/-! ## `main.go`: the protocol multiplexer -/

/-- The handler function that `grpcHandlerFunc` wraps in `h2c.NewHandler`
(main.go, lines 60-66). -/
def grpcHandlerFunc {σ : Type} (grpcServer otherHandler : Handler σ) : Handler σ :=
  fun w r =>
    if r.ProtoMajor == 2 && strings.Contains (r.Header.Get "Content-Type") "application/grpc" then
      grpcServer w r
    else
      otherHandler w r

/-- The two handlers a request can be dispatched to. -/
inductive Dispatched where
  | grpcServer
  | otherHandler
  deriving DecidableEq, Repr

/-- A gRPC server that only records that it was invoked. -/
def recGrpcServer : Handler (List Dispatched) := fun w _ => w ++ [Dispatched.grpcServer]

/-- An HTTP handler that only records that it was invoked. -/
def recOtherHandler : Handler (List Dispatched) := fun w _ => w ++ [Dispatched.otherHandler]

/-- The routing condition of the multiplexer, as a proposition. -/
def isGrpcRequest (r : Request) : Prop :=
  r.ProtoMajor = 2 ∧ "application/grpc".data <:+: (r.Header.Get "Content-Type").data

/-! ## Go `encoding/json`: struct tags and value encoding -/

/-- Go `strings.Cut(s, ",")`: the part of `s` before the first comma and the
part after it. -/
def cutComma : List Char → List Char × List Char
  | [] => ([], [])
  | c :: t => if c = ',' then ([], t) else ((cutComma t).1.cons c, (cutComma t).2)

/-- Go `encoding/json` `parseTag`: the field name of a struct tag and its
option string. -/
def parseTag (tag : String) : String × String :=
  (String.mk (cutComma tag.data).1, String.mk (cutComma tag.data).2)

/-- The comma-separated options of an option string, cut off one at a time as
the loop of `tagOptions.Contains` does. -/
def splitOptions (fuel : Nat) (o : List Char) : List (List Char) :=
  match fuel with
  | 0 => []
  | fuel + 1 =>
    if o.isEmpty then []
    else (cutComma o).1 :: splitOptions fuel (cutComma o).2

/-- Go `encoding/json` `tagOptions.Contains`: whether `optionName` is one of
the comma-separated options, compared for exact equality. -/
def tagOptionsContains (o : String) (optionName : String) : Bool :=
  (splitOptions o.length o.data).any (fun s => s == optionName.data)

/-- The lower-case hexadecimal digit of a number below 16. -/
def hexDigit (n : Nat) : Char := "0123456789abcdef".data.getD n '0'

/-- Go `encoding/json` string escaping of one character, with HTML escaping
on, as `json.Marshal` does. -/
def escapeChar (c : Char) : List Char :=
  if c = '\\' then ['\\', '\\']
  else if c = '"' then ['\\', '"']
  else if c = '\n' then ['\\', 'n']
  else if c = '\r' then ['\\', 'r']
  else if c = '\t' then ['\\', 't']
  else if c.toNat < 0x20 ∨ c = '<' ∨ c = '>' ∨ c = '&' then
    ['\\', 'u', '0', '0', hexDigit (c.toNat / 16), hexDigit (c.toNat % 16)]
  else if c.toNat = 0x2028 then "\\u2028".data
  else if c.toNat = 0x2029 then "\\u2029".data
  else [c]

/-- Go `encoding/json` encoding of a string value: quoted and escaped. -/
def encodeString (s : String) : String :=
  String.mk (['"'] ++ s.data.flatMap escapeChar ++ ['"'])

/-- Go `strconv.FormatInt(i, 10)`. -/
def formatInt (i : Int) : String :=
  match i with
  | Int.ofNat n => Nat.repr n
  | Int.negSucc n => "-" ++ Nat.repr (n + 1)

/-- The value of a struct field of one of the two kinds `httpError` has. -/
inductive FieldValue where
  | int32 (i : Int)
  | string (s : String)
  deriving DecidableEq, Repr

/-- Go `encoding/json` `isEmptyValue`: the zero integer and the empty string. -/
def isEmptyValue : FieldValue → Bool
  | FieldValue.int32 i => i == 0
  | FieldValue.string s => s.data.length == 0

/-- Go `encoding/json` encoding of a field value. -/
def encodeValue : FieldValue → String
  | FieldValue.int32 i => formatInt i
  | FieldValue.string s => encodeString s

/-- A struct field as `json.Marshal` sees it: its `json` tag and its value. -/
structure StructField where
  tag : String
  value : FieldValue

/-- The member a struct field contributes to the JSON object: its name and its
encoded value, or nothing when the tag has the option `omitempty` and the
value is empty. -/
def marshalField (f : StructField) : Option (String × String) :=
  if tagOptionsContains (parseTag f.tag).2 "omitempty" && isEmptyValue f.value then none
  else some ((parseTag f.tag).1, encodeValue f.value)

/-- The text of a JSON object with the given members, in order. -/
def renderObject (members : List (String × String)) : String :=
  "\x7b" ++ ",".intercalate (members.map (fun m => encodeString m.1 ++ ":" ++ m.2)) ++ "\x7d"

/-! ## `main.go`: the gateway error handler -/

/-- The struct `httpError` (main.go, lines 35-38); `Code` is an `int32`. -/
structure httpError where
  Code : Int
  Message : String
  deriving DecidableEq, Repr

/-- The fields of `httpError` with their `json` tags, as written in the source. -/
def httpError.fields (e : httpError) : List StructField :=
  [⟨"code,omitempty", FieldValue.int32 e.Code⟩,
   ⟨"message, omitempty", FieldValue.string e.Message⟩]

/-- The members of the JSON object `json.Marshal` produces for an `httpError`. -/
def httpError.members (e : httpError) : List (String × String) :=
  e.fields.filterMap marshalField

/-- Go `json.Marshal` applied to an `httpError`. -/
def json.Marshal (e : httpError) : String :=
  renderObject e.members

/-- A gRPC status code, `codes.Code`, an unsigned 32-bit number. -/
abbrev Code := Nat

def codes.OK : Code := 0
def codes.Canceled : Code := 1
def codes.Unknown : Code := 2
def codes.InvalidArgument : Code := 3
def codes.DeadlineExceeded : Code := 4
def codes.NotFound : Code := 5
def codes.AlreadyExists : Code := 6
def codes.PermissionDenied : Code := 7
def codes.ResourceExhausted : Code := 8
def codes.FailedPrecondition : Code := 9
def codes.Aborted : Code := 10
def codes.OutOfRange : Code := 11
def codes.Unimplemented : Code := 12
def codes.Internal : Code := 13
def codes.Unavailable : Code := 14
def codes.DataLoss : Code := 15
def codes.Unauthenticated : Code := 16

/-- One element of `Status.Details()`: a `*pb.Error` with its `Code` (an
`int32`) and `Message`, or a message of some other type. -/
inductive Detail where
  | pbError (Code : Int) (Message : String)
  | other (typeUrl : String)
  deriving DecidableEq, Repr

/-- A gRPC `*status.Status`, through its accessors `Code()`, `Message()` and
`Details()`. -/
structure Status where
  Code : Code
  Message : String
  Details : List Detail
  deriving DecidableEq, Repr

/-- A non-nil Go `error`: one that carries a gRPC status, for which
`status.FromError` succeeds, or any other error with its `Error()` text. -/
inductive GoError where
  | grpcStatus (s : Status)
  | plain (msg : String)
  deriving DecidableEq, Repr

/-- Go `err.Error()` for an error that is not a gRPC status; for a gRPC status
the program never calls it. -/
def GoError.Error : GoError → String
  | GoError.grpcStatus s => s.Message
  | GoError.plain msg => msg

/-- The gRPC `status.New`. -/
def status.New (c : Code) (msg : String) : Status := ⟨c, msg, []⟩

/-- The gRPC `status.FromError`: the status of the error and `true`, or a
status of code Unknown and `false` when the error carries no status. -/
def status.FromError : GoError → Status × Bool
  | GoError.grpcStatus s => (s, true)
  | GoError.plain msg => (status.New codes.Unknown msg, false)

/-- The grpc-gateway `runtime.HTTPStatusFromCode` (library code, version 1 of
the gateway), the fixed table from gRPC codes to HTTP statuses; codes outside
the table give 500. -/
def HTTPStatusFromCode (c : Code) : Nat :=
  match c with
  | 0 => 200
  | 1 => 408
  | 2 => 500
  | 3 => 400
  | 4 => 504
  | 5 => 404
  | 6 => 409
  | 7 => 403
  | 16 => 401
  | 8 => 429
  | 9 => 400
  | 10 => 409
  | 11 => 400
  | 12 => 501
  | 13 => 500
  | 14 => 503
  | 15 => 500
  | _ => 500

/-- Go conversion `int32(c)` of an unsigned 32-bit number. -/
def toInt32 (c : Nat) : Int :=
  if c % 2 ^ 32 < 2 ^ 31 then ((c % 2 ^ 32 : Nat) : Int) else ((c % 2 ^ 32 : Nat) : Int) - 2 ^ 32

/-- One pass of the loop body of `grpcGatewayError` (main.go, lines 153-156). -/
def applyDetail (e : httpError) (detail : Detail) : httpError :=
  match detail with
  | Detail.pbError c m => { e with Code := c, Message := m }
  | Detail.other _ => e

/-- The value of the local `httpError` of `grpcGatewayError` when it is
marshalled (main.go, lines 146-157). -/
def gatewayHttpError (err : GoError) : httpError :=
  let s := if (status.FromError err).2 then (status.FromError err).1
           else status.New codes.Unknown err.Error
  s.Details.foldl applyDetail { Code := toInt32 s.Code, Message := s.Message }

/-- What `grpcGatewayError` writes to the response writer: the content type
header, the status passed to `WriteHeader`, and the body. -/
structure Written where
  contentType : String
  statusCode : Nat
  body : String
  deriving DecidableEq, Repr

/-- The function `grpcGatewayError` (main.go, lines 145-162);
`marshalerContentType` is the result of `marshaler.ContentType()`. -/
def grpcGatewayError (marshalerContentType : String) (err : GoError) : Written :=
  let s := if (status.FromError err).2 then (status.FromError err).1
           else status.New codes.Unknown err.Error
  { contentType := marshalerContentType
    statusCode := HTTPStatusFromCode s.Code
    body := json.Marshal (gatewayHttpError err) }

/-- Whether a detail is a `*pb.Error`. -/
def Detail.isPbError : Detail → Bool
  | Detail.pbError _ _ => true
  | Detail.other _ => false

/-! ## `client/client.go`: the client interceptor chain -/

namespace Client

/-- A unary invoker with the state it acts on made explicit: it receives the
number of call attempts made so far and returns the new number together with
the outcome, `none` for success or the gRPC code of the error. -/
abbrev Invoker := Nat → Nat × Option Code

/-- A `grpc.UnaryClientInterceptor`: given the next invoker, an invoker. -/
abbrev UnaryClientInterceptor := Invoker → Invoker

/-- The wire call under the interceptors: each invocation is one more call
attempt, and `outcome k` is how the attempt numbered `k` (from 0) ends. -/
def wireInvoker (outcome : Nat → Option Code) : Invoker :=
  fun n => (n + 1, outcome n)

/-- The options handed to `grpc_retry.UnaryClientInterceptor`. -/
structure RetryOptions where
  max : Nat
  codes : List Code

/-- The retry options of `GetClientConn` (client.go, lines 40-45). -/
def retryOptions : RetryOptions :=
  { max := 2, codes := [codes.Unknown, codes.Internal, codes.DeadlineExceeded] }

/-- Modelled from the spec: the loop of the retry interceptor, whose code
(`grpc_retry.UnaryClientInterceptor`) is not among the sources.  After a
failed attempt with error code `last`, with `remaining` attempts left: a retry
that would start after the overall deadline does not execute and the deadline
error, of code DeadlineExceeded, is returned; otherwise the call is attempted
again, and it is retried further only when its error code is in the
allow-list; with no attempt left the last error is returned.  `expired n`
tells whether the overall deadline has passed once `n` attempts have been
made. -/
def retryLoop (allow : List Code) (expired : Nat → Bool) (next : Invoker) :
    Nat → Nat → Code → Nat × Option Code
  | 0, n, last => (n, some last)
  | remaining + 1, n, _ =>
    if expired n then (n, some codes.DeadlineExceeded)
    else
      match next n with
      | (n', none) => (n', none)
      | (n', some c) =>
        if c ∈ allow then retryLoop allow expired next remaining n' c else (n', some c)

/-- Modelled from the spec: the retry interceptor
(`grpc_retry.UnaryClientInterceptor`, not among the sources).  The call is
attempted; on failure it is retried up to `max` attempts in total, only when
the error code is in the allow-list, every other code failing at once. -/
def retryInterceptor (o : RetryOptions) (expired : Nat → Bool) : UnaryClientInterceptor :=
  fun next n =>
    match next n with
    | (n', none) => (n', none)
    | (n', some c) =>
      if c ∈ o.codes then retryLoop o.codes expired next (o.max - 1) n' c else (n', some c)

/-- Modelled from the spec: the timeout interceptor
(`middleware.UnaryContextTimeout`, not among the sources) derives the deadline
of the call and calls the next invoker once, returning what it returns; the
deadline is what `expired` reports on. -/
def UnaryContextTimeout : UnaryClientInterceptor := fun next => next

/-- Modelled from the spec: the tracing interceptor
(`middleware.ClientTracing`, not among the sources) opens a span, calls the
next invoker once and closes the span, returning what the invoker returns. -/
def ClientTracing : UnaryClientInterceptor := fun next => next

/-- The chaining of `grpc_middleware.ChainUnaryClient`: the first interceptor
is the outermost one. -/
def ChainUnaryClient (is : List UnaryClientInterceptor) : UnaryClientInterceptor :=
  fun invoker => is.foldr (fun i next => i next) invoker

/-- The unary interceptor that `GetClientConn` installs (client.go, lines
35-48). -/
def unaryInterceptor (expired : Nat → Bool) : UnaryClientInterceptor :=
  ChainUnaryClient [UnaryContextTimeout, ClientTracing, retryInterceptor retryOptions expired]

/-- A unary call through the connection of `GetClientConn`: the number of call
attempts made and the outcome returned to the caller. -/
def unaryCall (outcome : Nat → Option Code) (expired : Nat → Bool) : Nat × Option Code :=
  unaryInterceptor expired (wireInvoker outcome) 0

end Client

/-! ## `main.go`: the server interceptor chain -/

/-- How a unary handler ends: with a reply, with an error of some gRPC code, or
with a fault (a panic). -/
inductive Outcome where
  | reply (r : String)
  | error (c : Code)
  | fault (what : String)
  deriving DecidableEq, Repr

/-- The interceptors of the server chain. -/
inductive InterceptorName where
  | AccessLog
  | ErrorLog
  | Recovery
  | ServerTracing
  deriving DecidableEq, Repr

/-- A unary handler with the record of observations made explicit: each entry
names an interceptor and the outcome it saw come back from the handler it
wraps. -/
abbrev UnaryHandler := List (InterceptorName × Outcome) → List (InterceptorName × Outcome) × Outcome

/-- A `grpc.UnaryServerInterceptor`: given the handler it wraps, a handler. -/
abbrev UnaryServerInterceptor := UnaryHandler → UnaryHandler

/-- An interceptor that records the outcome of the handler it wraps and passes
it on unchanged. -/
def observe (name : InterceptorName) : UnaryServerInterceptor :=
  fun next log => ((next log).1 ++ [(name, (next log).2)], (next log).2)

/-- Modelled from the spec: the access log interceptor (`middleware.AccessLog`,
not among the sources) records the outcome without altering it. -/
def AccessLog : UnaryServerInterceptor := observe InterceptorName.AccessLog

/-- Modelled from the spec: the error log interceptor (`middleware.ErrorLog`,
not among the sources) records the outcome without altering it. -/
def ErrorLog : UnaryServerInterceptor := observe InterceptorName.ErrorLog

/-- Modelled from the spec: the tracing interceptor
(`middleware.ServerTracing`, not among the sources) opens a span, calls the
handler and closes the span whatever the outcome, which it passes on. -/
def ServerTracing : UnaryServerInterceptor := observe InterceptorName.ServerTracing

/-- Modelled from the spec: the recovery interceptor (`middleware.Recovery`,
not among the sources) turns a fault of the handler it wraps into an internal
error, so that the fault does not pass it, and logs the fault; any other
outcome passes unchanged. -/
def Recovery : UnaryServerInterceptor :=
  fun next log =>
    match (next log).2 with
    | Outcome.fault what =>
      ((next log).1 ++ [(InterceptorName.Recovery, Outcome.fault what)],
        Outcome.error codes.Internal)
    | o => ((next log).1, o)

/-- The chaining of `grpc_middleware.ChainUnaryServer`: the first interceptor
is the outermost one. -/
def ChainUnaryServer (is : List UnaryServerInterceptor) : UnaryServerInterceptor :=
  fun handler => is.foldr (fun i next => i next) handler

/-- The unary interceptor that `runGrpcServer` installs (main.go, lines
121-126). -/
def runGrpcServer.unaryInterceptor : UnaryServerInterceptor :=
  ChainUnaryServer [AccessLog, ErrorLog, Recovery, ServerTracing]

/-! ## `server/tag.go` -/

/-- The request `*pb.GetTagListRequest`. -/
structure GetTagListRequest where
  Name : String
  deriving DecidableEq, Repr

/-- The generated getter `GetName`, which accepts a nil request. -/
def GetTagListRequest.GetName : Option GetTagListRequest → String
  | some r => r.Name
  | none => ""

/-- What `GetTagList` uses and the sources do not contain: the downstream call
`bapi.API.GetTagList`, the decoding of its body by `json.Unmarshal` into a
reply, the two error values of `errcode`, and `errcode.TogRPCError`, which
builds the status error of an error value. -/
structure TagDeps (Reply Errcode : Type) where
  apiGetTagList : String → Except GoError String
  jsonUnmarshal : String → Except GoError Reply
  ErrorGetTagListFail : Errcode
  Fail : Errcode
  TogRPCError : Errcode → GoError

/-- The method `TagServer.GetTagList` (tag.go, lines 18-30); the result is the
pair of the reply pointer and the error, `none` standing for nil. -/
def GetTagList {Reply Errcode : Type} (deps : TagDeps Reply Errcode)
    (r : Option GetTagListRequest) : Option Reply × Option GoError :=
  match deps.apiGetTagList (GetTagListRequest.GetName r) with
  | Except.error _ => (none, some (deps.TogRPCError deps.ErrorGetTagListFail))
  | Except.ok body =>
    match deps.jsonUnmarshal body with
    | Except.error _ => (none, some (deps.TogRPCError deps.Fail))
    | Except.ok tagListReply => (some tagListReply, none)

/-- A concrete set of dependencies for `GetTagList`: the downstream call fails for the name
`down`, and the body `bad` does not decode. -/
def witnessDeps : TagDeps String Nat where
  apiGetTagList := fun name =>
    if name = "down" then Except.error (GoError.plain "connection refused") else Except.ok name
  jsonUnmarshal := fun body =>
    if body = "bad" then Except.error (GoError.plain "unexpected end of JSON input")
    else Except.ok body
  ErrorGetTagListFail := 20010001
  Fail := 10000001
  TogRPCError := fun c =>
    GoError.grpcStatus ⟨codes.Unknown, "failed", [Detail.pbError (c : Int) "failed"]⟩

/-! ## `main.go` and `client/3_11/client.go`: registration and discovery -/

/-- Go `fmt.Sprintf` for formats whose only verb is `%s`: each `%s` is replaced
by the next argument. -/
def sprintfChars : List Char → List String → List Char
  | [], _ => []
  | '%' :: 's' :: rest, a :: args => a.data ++ sprintfChars rest args
  | '%' :: 's' :: rest, [] => "%!s(MISSING)".data ++ sprintfChars rest []
  | c :: rest, args => c :: sprintfChars rest args

/-- Go `fmt.Sprintf(format, args...)` with string arguments. -/
def Sprintf (format : String) (args : List String) : String :=
  String.mk (sprintfChars format.data args)

/-- The constant `SERVICE_NAME` (main.go, line 50). -/
def SERVICE_NAME : String := "tag-service"

/-- The target of line 85 of main.go as a function of the service name. -/
def registerTarget (serviceName : String) : String :=
  Sprintf "/etcdv3://gp-programming-tour/grpc/%s" [serviceName]

/-- The key layout of the coordination store, `/{namespace}/grpc/{serviceName}`. -/
def keyLayout (namespaceName serviceName : String) : String :=
  "/" ++ namespaceName ++ "/grpc/" ++ serviceName

/-- What `RunServer` does that can be seen from outside. -/
inductive Event where
  | register (target addr : String) (ttl : Nat) (succeeded : Bool)
  | listenAndServe (addr : String)
  | closeClient
  deriving DecidableEq, Repr

/-- The environment of `RunServer`: whether `clientv3.New` returns a client or
an error, whether the registration performed by `grpcproxy.Register` reaches
the store, and the error with which `http.ListenAndServe` returns. -/
structure ServerEnv where
  clientv3New : Except GoError Unit
  registerSucceeds : Bool
  listenAndServe : GoError

/-- The function `RunServer` (main.go, lines 69-89): the events in order and
the error returned.  The result of `grpcproxy.Register` is discarded by the
source, so `registerSucceeds` is recorded and never branched on. -/
def RunServer (env : ServerEnv) (port : String) : List Event × GoError :=
  match env.clientv3New with
  | Except.error err => ([], err)
  | Except.ok _ =>
    ([Event.register (registerTarget SERVICE_NAME) (":" ++ port) 60 env.registerSucceeds,
      Event.listenAndServe (":" ++ port),
      Event.closeClient],
     env.listenAndServe)

/-- Whether an event is the start of listening. -/
def Event.isListen : Event → Bool
  | Event.listenAndServe _ => true
  | _ => false

namespace Client311

/-- The target line 34 of client/3_11/client.go builds for a service name. -/
def target (serviceName : String) : String :=
  Sprintf "/etcdv3://gp-programming-tour/grpc/%s" [serviceName]

/-- The function `GetClientConn` of client/3_11/client.go (lines 24-38): the
error of `clientv3.New`, or the target handed to `grpc.DialContext`. -/
def GetClientConn (clientv3New : Except GoError Unit) (serviceName : String) :
    Except GoError String :=
  match clientv3New with
  | Except.error err => Except.error err
  | Except.ok _ => Except.ok (target serviceName)

end Client311

/-! ## Theorems -/

theorem containsChars_iff (substr s : List Char) :
    containsChars substr s = true ↔ substr <:+: s := by
  induction s with
  | nil =>
    cases substr <;> simp [containsChars]
  | cons c t ih =>
    simp only [containsChars, Bool.or_eq_true, List.isPrefixOf_iff_prefix, ih]
    rw [List.infix_cons_iff]

theorem grpcHandlerFunc_eq {σ : Type} (g o : Handler σ) (w : σ) (r : Request) :
    (isGrpcRequest r → grpcHandlerFunc g o w r = g w r) ∧
    (¬ isGrpcRequest r → grpcHandlerFunc g o w r = o w r) := by
  have hc : (r.ProtoMajor == 2 &&
      strings.Contains (r.Header.Get "Content-Type") "application/grpc") = true ↔ isGrpcRequest r := by
    simp [isGrpcRequest, strings.Contains, containsChars_iff]
  constructor
  · intro h
    have hb := hc.mpr h
    unfold grpcHandlerFunc
    rw [if_pos hb]
  · intro h
    have hb : ¬ ((r.ProtoMajor == 2 &&
        strings.Contains (r.Header.Get "Content-Type") "application/grpc") = true) :=
      fun hb => h (hc.mp hb)
    unfold grpcHandlerFunc
    rw [if_neg hb]

/-- C1: the multiplexer dispatches a request to the gRPC server exactly when
its protocol major version is 2 and its Content-Type header contains
`application/grpc`; every other request goes to the other handler, and each
request invokes exactly one of the two handlers. -/
theorem grpcHandlerFunc_dispatch (r : Request) (log : List Dispatched) :
    (grpcHandlerFunc recGrpcServer recOtherHandler log r = log ++ [Dispatched.grpcServer] ↔
        (r.ProtoMajor = 2 ∧ "application/grpc".data <:+: (r.Header.Get "Content-Type").data)) ∧
    (grpcHandlerFunc recGrpcServer recOtherHandler log r = log ++ [Dispatched.otherHandler] ↔
        ¬ (r.ProtoMajor = 2 ∧ "application/grpc".data <:+: (r.Header.Get "Content-Type").data)) ∧
    (∃ d, grpcHandlerFunc recGrpcServer recOtherHandler log r = log ++ [d]) ∧
    (∀ (σ : Type) (g o : Handler σ) (w : σ),
        grpcHandlerFunc g o w r =
          if r.ProtoMajor = 2 ∧ "application/grpc".data <:+: (r.Header.Get "Content-Type").data
          then g w r else o w r) := by
  by_cases h : isGrpcRequest r
  · have e : ∀ (σ : Type) (g o : Handler σ) (w : σ), grpcHandlerFunc g o w r = g w r :=
      fun σ g o w => (grpcHandlerFunc_eq g o w r).1 h
    have h2 : r.ProtoMajor = 2 ∧ "application/grpc".data <:+: (r.Header.Get "Content-Type").data := h
    refine ⟨?_, ?_, ?_, ?_⟩
    · rw [e]
      exact ⟨fun _ => h2, fun _ => rfl⟩
    · rw [e]
      constructor
      · intro hh
        have := List.append_cancel_left hh
        cases this
      · intro hh
        exact absurd h2 hh
    · exact ⟨Dispatched.grpcServer, by rw [e]; rfl⟩
    · intro σ g o w
      rw [e, if_pos h2]
  · have e : ∀ (σ : Type) (g o : Handler σ) (w : σ), grpcHandlerFunc g o w r = o w r :=
      fun σ g o w => (grpcHandlerFunc_eq g o w r).2 h
    have h2 : ¬ (r.ProtoMajor = 2 ∧ "application/grpc".data <:+: (r.Header.Get "Content-Type").data) := h
    refine ⟨?_, ?_, ?_, ?_⟩
    · rw [e]
      constructor
      · intro hh
        have := List.append_cancel_left hh
        cases this
      · intro hh
        exact absurd hh h2
    · rw [e]
      exact ⟨fun _ => h2, fun _ => rfl⟩
    · exact ⟨Dispatched.otherHandler, by rw [e]; rfl⟩
    · intro σ g o w
      rw [e, if_neg h2]

theorem foldl_applyDetail_other (ds : List Detail) (e : httpError)
    (h : ∀ d ∈ ds, d.isPbError = false) : ds.foldl applyDetail e = e := by
  induction ds generalizing e with
  | nil => rfl
  | cons d t ih =>
    have hd : d.isPbError = false := h d (List.mem_cons_self d t)
    have ht : ∀ x ∈ t, x.isPbError = false := fun x hx => h x (List.mem_cons_of_mem d hx)
    cases d with
    | pbError c m => simp [Detail.isPbError] at hd
    | other u => simpa [List.foldl, applyDetail] using ih e ht

theorem foldl_applyDetail_last (ds post : List Detail) (c : Int) (m : String) (e : httpError)
    (h : ∀ d ∈ post, d.isPbError = false) :
    (ds ++ [Detail.pbError c m] ++ post).foldl applyDetail e = ⟨c, m⟩ := by
  rw [List.foldl_append, List.foldl_append, foldl_applyDetail_other post _ h]
  simp [applyDetail]

theorem httpError_members (e : httpError) :
    e.members =
      if e.Code = 0 then [("message", encodeString e.Message)]
      else [("code", formatInt e.Code), ("message", encodeString e.Message)] := by
  have h1 : tagOptionsContains (parseTag "code,omitempty").2 "omitempty" = true := by decide
  have h2 : tagOptionsContains (parseTag "message, omitempty").2 "omitempty" = false := by decide
  have h3 : (parseTag "code,omitempty").1 = "code" := by decide
  have h4 : (parseTag "message, omitempty").1 = "message" := by decide
  by_cases hc : e.Code = 0
  · simp [httpError.members, httpError.fields, marshalField, h1, h2, h4, isEmptyValue, encodeValue, hc]
  · simp [httpError.members, httpError.fields, marshalField, h1, h2, h3, h4, isEmptyValue,
      encodeValue, hc]

theorem gatewayHttpError_grpcStatus (s : Status) :
    gatewayHttpError (GoError.grpcStatus s) =
      s.Details.foldl applyDetail ⟨toInt32 s.Code, s.Message⟩ := by
  simp [gatewayHttpError, status.FromError]

/-- C2: when the status of the error carries a `*pb.Error` detail, the body is
the JSON encoding of that detail's Code and Message, whatever the code and
message of the status; with several such details the last one in the list
supplies both fields. -/
theorem grpcGatewayError_detail_overrides (ct : String) (s : Status)
    (before after : List Detail) (c : Int) (m : String)
    (hd : s.Details = before ++ [Detail.pbError c m] ++ after)
    (hlast : ∀ d ∈ after, d.isPbError = false) :
    gatewayHttpError (GoError.grpcStatus s) = ⟨c, m⟩ ∧
    (grpcGatewayError ct (GoError.grpcStatus s)).body = json.Marshal ⟨c, m⟩ ∧
    (c ≠ 0 → (grpcGatewayError ct (GoError.grpcStatus s)).body =
      renderObject [("code", formatInt c), ("message", encodeString m)]) := by
  have h : gatewayHttpError (GoError.grpcStatus s) = ⟨c, m⟩ := by
    rw [gatewayHttpError_grpcStatus, hd]
    exact foldl_applyDetail_last before after c m _ hlast
  refine ⟨h, ?_, ?_⟩
  · simp only [grpcGatewayError, h]
  · intro hc
    simp only [grpcGatewayError, h, json.Marshal, httpError_members]
    rw [if_neg hc]

/-- Witness for C2: a status of code Internal whose details hold two
`*pb.Error` values separated by another message. -/
theorem grpcGatewayError_detail_overrides_witness :
    (grpcGatewayError "application/json"
      (GoError.grpcStatus ⟨13, "internal", [Detail.pbError 10000000 "first", Detail.other "any",
        Detail.pbError 20010001 "get tag list fail", Detail.other "any"]⟩)).body
      = "\x7b\"code\":20010001,\"message\":\"get tag list fail\"\x7d" :=
  ((grpcGatewayError_detail_overrides "application/json"
      ⟨13, "internal", [Detail.pbError 10000000 "first", Detail.other "any",
        Detail.pbError 20010001 "get tag list fail", Detail.other "any"]⟩
      [Detail.pbError 10000000 "first", Detail.other "any"] [Detail.other "any"]
      20010001 "get tag list fail" rfl (by decide)).2.1).trans (by decide)

/-- C3, counterexample: a status whose `*pb.Error` detail has Code 0 is written
as a body with a message member only; the body has no code member. -/
theorem grpcGatewayError_code_omitted :
    (grpcGatewayError "application/json"
      (GoError.grpcStatus ⟨2, "boom", [Detail.pbError 0 "boom"]⟩)).body
        = "\x7b\"message\":\"boom\"\x7d" ∧
    (gatewayHttpError (GoError.grpcStatus ⟨2, "boom", [Detail.pbError 0 "boom"]⟩)).members.lookup
      "code" = none := by
  decide

/-- C3, amended: for every error the body is the JSON object of the members of
the marshalled `httpError`; it always has a message member, also for the empty
message, and it has a code member exactly when the code is not 0. -/
theorem grpcGatewayError_body_members (ct : String) (err : GoError) :
    (grpcGatewayError ct err).body = renderObject (gatewayHttpError err).members ∧
    (gatewayHttpError err).members.lookup "message"
      = some (encodeString (gatewayHttpError err).Message) ∧
    (gatewayHttpError err).members.lookup "code"
      = (if (gatewayHttpError err).Code = 0 then none
         else some (formatInt (gatewayHttpError err).Code)) ∧
    (gatewayHttpError err).members.map Prod.fst
      = (if (gatewayHttpError err).Code = 0 then ["message"] else ["code", "message"]) := by
  refine ⟨rfl, ?_, ?_, ?_⟩
  · rw [httpError_members]
    by_cases hc : (gatewayHttpError err).Code = 0
    · rw [if_pos hc]
      simp [List.lookup]
    · rw [if_neg hc]
      have : ("message" == "code") = false := by decide
      simp [List.lookup, this]
  · rw [httpError_members]
    by_cases hc : (gatewayHttpError err).Code = 0
    · rw [if_pos hc, if_pos hc]
      have : ("code" == "message") = false := by decide
      simp [List.lookup, this]
    · rw [if_neg hc, if_neg hc]
      simp [List.lookup]
  · rw [httpError_members]
    by_cases hc : (gatewayHttpError err).Code = 0
    · rw [if_pos hc, if_pos hc]
      rfl
    · rw [if_neg hc, if_neg hc]
      rfl

/-- C4, counterexample: the status of code 4294967295 with no details is
written with the code -1, which is not the numeric value of the status code. -/
theorem grpcGatewayError_code_wraps :
    (∀ d ∈ (Status.mk 4294967295 "big" []).Details, d.isPbError = false) ∧
    (grpcGatewayError "application/json" (GoError.grpcStatus ⟨4294967295, "big", []⟩)).body
      = "\x7b\"code\":-1,\"message\":\"big\"\x7d" := by
  decide

/-- C4, amended: for a status with no `*pb.Error` among its details the body
is the JSON encoding of the status code converted to `int32` and of the status
message: a code above 0 and below 2^31 is written as its own number, a code
from 2^31 on is written as that number less 2^32, and for the code 0 the body
has the message member only; the status DeadlineExceeded with message
`deadline exceeded` gives HTTP 504 and the body with code 4 and that
message. -/
theorem grpcGatewayError_no_detail (ct : String) (s : Status)
    (h : ∀ d ∈ s.Details, d.isPbError = false) :
    gatewayHttpError (GoError.grpcStatus s) = ⟨toInt32 s.Code, s.Message⟩ ∧
    (grpcGatewayError ct (GoError.grpcStatus s)).body = json.Marshal ⟨toInt32 s.Code, s.Message⟩ ∧
    (grpcGatewayError ct (GoError.grpcStatus s)).body =
      renderObject (if toInt32 s.Code = 0 then [("message", encodeString s.Message)]
        else [("code", formatInt (toInt32 s.Code)), ("message", encodeString s.Message)]) ∧
    (s.Code < 2 ^ 31 → toInt32 s.Code = (s.Code : Int)) ∧
    (2 ^ 31 ≤ s.Code → s.Code < 2 ^ 32 → toInt32 s.Code = (s.Code : Int) - 2 ^ 32) ∧
    (0 < s.Code → s.Code < 2 ^ 31 → (grpcGatewayError ct (GoError.grpcStatus s)).body =
      renderObject [("code", Nat.repr s.Code), ("message", encodeString s.Message)]) ∧
    (s.Code = 0 → (grpcGatewayError ct (GoError.grpcStatus s)).body =
      renderObject [("message", encodeString s.Message)]) ∧
    grpcGatewayError ct (GoError.grpcStatus ⟨codes.DeadlineExceeded, "deadline exceeded", []⟩)
      = ⟨ct, 504, "\x7b\"code\":4,\"message\":\"deadline exceeded\"\x7d"⟩ := by
  have hg : gatewayHttpError (GoError.grpcStatus s) = ⟨toInt32 s.Code, s.Message⟩ := by
    rw [gatewayHttpError_grpcStatus]
    exact foldl_applyDetail_other _ _ h
  have hi : s.Code < 2 ^ 31 → toInt32 s.Code = (s.Code : Int) := by
    intro hlt
    have hm : s.Code % 2 ^ 32 = s.Code :=
      Nat.mod_eq_of_lt (Nat.lt_of_lt_of_le hlt (by norm_num))
    unfold toInt32
    rw [hm, if_pos hlt]
  have hw : 2 ^ 31 ≤ s.Code → s.Code < 2 ^ 32 → toInt32 s.Code = (s.Code : Int) - 2 ^ 32 := by
    intro hge hlt
    have hm : s.Code % 2 ^ 32 = s.Code := Nat.mod_eq_of_lt hlt
    unfold toInt32
    rw [hm, if_neg (Nat.not_lt.mpr hge)]
  have hb : (grpcGatewayError ct (GoError.grpcStatus s)).body =
      renderObject (if toInt32 s.Code = 0 then [("message", encodeString s.Message)]
        else [("code", formatInt (toInt32 s.Code)), ("message", encodeString s.Message)]) := by
    simp only [grpcGatewayError, hg, json.Marshal, httpError_members]
  refine ⟨hg, ?_, hb, hi, hw, ?_, ?_, ?_⟩
  · simp only [grpcGatewayError, hg]
  · intro hpos hlt
    have hne : toInt32 s.Code ≠ 0 := by
      rw [hi hlt]
      exact_mod_cast Nat.pos_iff_ne_zero.mp hpos
    rw [hb, if_neg hne, hi hlt]
    rfl
  · intro hz
    have h0 : toInt32 s.Code = 0 := by
      rw [hz]
      decide
    rw [hb, if_pos h0]
  · have hd : json.Marshal (gatewayHttpError
        (GoError.grpcStatus ⟨codes.DeadlineExceeded, "deadline exceeded", []⟩))
        = "\x7b\"code\":4,\"message\":\"deadline exceeded\"\x7d" := by decide
    simp only [grpcGatewayError, hd]
    rfl

/-- Witness for C4: the status NotFound with a detail of another type. -/
theorem grpcGatewayError_no_detail_witness :
    (grpcGatewayError "application/json"
      (GoError.grpcStatus ⟨codes.NotFound, "no such tag", [Detail.other "any"]⟩)).body
      = "\x7b\"code\":5,\"message\":\"no such tag\"\x7d" :=
  ((grpcGatewayError_no_detail "application/json"
      ⟨codes.NotFound, "no such tag", [Detail.other "any"]⟩ (by decide)).2.1).trans (by decide)

/-- C5: the HTTP status written is the table value of the code of the status
alone: changing the details of a status, also to ones holding a `*pb.Error`,
leaves it unchanged, and an error that carries no status is handled as the
status Unknown with the text of the error, which gives HTTP 500. -/
theorem grpcGatewayError_http_status (ct : String) :
    (∀ err : GoError, (grpcGatewayError ct err).statusCode
        = HTTPStatusFromCode (status.FromError err).1.Code) ∧
    (∀ (c : Code) (msg : String) (d : List Detail),
      (grpcGatewayError ct (GoError.grpcStatus ⟨c, msg, d⟩)).statusCode = HTTPStatusFromCode c) ∧
    (∀ (c : Code) (msg : String) (d₁ d₂ : List Detail),
      (grpcGatewayError ct (GoError.grpcStatus ⟨c, msg, d₁⟩)).statusCode
        = (grpcGatewayError ct (GoError.grpcStatus ⟨c, msg, d₂⟩)).statusCode) ∧
    (∀ msg : String, status.FromError (GoError.plain msg) = (status.New codes.Unknown msg, false)) ∧
    (∀ msg : String, grpcGatewayError ct (GoError.plain msg)
        = ⟨ct, 500, json.Marshal ⟨2, msg⟩⟩) := by
  refine ⟨?_, ?_, ?_, ?_, ?_⟩
  · intro err
    cases err <;> simp [grpcGatewayError, status.FromError, status.New, GoError.Error]
  · intro c msg d
    simp [grpcGatewayError, status.FromError]
  · intro c msg d₁ d₂
    simp [grpcGatewayError, status.FromError]
  · intro msg
    rfl
  · intro msg
    simp [grpcGatewayError, gatewayHttpError, status.FromError, status.New, GoError.Error,
      codes.Unknown, HTTPStatusFromCode, toInt32]

theorem unaryCall_eq (outcome : Nat → Option Code) (expired : Nat → Bool) :
    Client.unaryCall outcome expired =
      match outcome 0 with
      | none => (1, none)
      | some c =>
        if c ∈ Client.retryOptions.codes then
          (if expired 1 then (1, some codes.DeadlineExceeded)
           else match outcome 1 with
             | none => (2, none)
             | some c' => (2, some c'))
        else (1, some c) := by
  simp only [Client.unaryCall, Client.unaryInterceptor, Client.ChainUnaryClient, List.foldr,
    Client.UnaryContextTimeout, Client.ClientTracing, Client.retryInterceptor, Client.wireInvoker]
  cases h0 : outcome 0 with
  | none => rfl
  | some c =>
    by_cases hc : c ∈ Client.retryOptions.codes
    · simp only [if_pos hc]
      have hm : Client.retryOptions.max - 1 = 1 := rfl
      rw [hm]
      simp only [Client.retryLoop, Client.wireInvoker]
      by_cases he : expired 1 = true
      · simp [he]
      · simp only [he]
        cases h1 : outcome 1 with
        | none => simp
        | some c' =>
          by_cases hc' : c' ∈ Client.retryOptions.codes <;> simp [hc']
    · simp only [if_neg hc]

/-- C6, counterexample: every attempt fails with DeadlineExceeded, a code of
the allow-list, and the overall deadline has passed when the retry would
start; one call attempt occurs, not two, and the deadline error is returned. -/
theorem unaryCall_one_attempt_after_deadline :
    (∀ k : Nat, ∃ c, (fun _ : Nat => some codes.DeadlineExceeded) k = some c ∧
      c ∈ Client.retryOptions.codes) ∧
    Client.unaryCall (fun _ => some codes.DeadlineExceeded) (fun n => decide (1 ≤ n))
      = (1, some codes.DeadlineExceeded) := by
  refine ⟨fun _ => ⟨codes.DeadlineExceeded, rfl, by decide⟩, ?_⟩
  rw [unaryCall_eq]
  decide

/-- C6, amended: when every attempt fails with a code of the allow-list and
the overall deadline has not passed when the retry would start, exactly 2 call
attempts occur and the error of the second is returned; when the first attempt
fails with a code outside the allow-list, exactly 1 attempt occurs and that
error is returned. -/
theorem unaryCall_attempts (outcome : Nat → Option Code) (expired : Nat → Bool) :
    ((∀ k, ∃ c, outcome k = some c ∧ c ∈ Client.retryOptions.codes) → expired 1 = false →
      (Client.unaryCall outcome expired).1 = 2 ∧
      (Client.unaryCall outcome expired).2 = outcome 1) ∧
    (∀ c, outcome 0 = some c → c ∉ Client.retryOptions.codes →
      Client.unaryCall outcome expired = (1, some c)) := by
  constructor
  · intro hall hlive
    obtain ⟨c₀, h0, hc₀⟩ := hall 0
    obtain ⟨c₁, h1, _⟩ := hall 1
    rw [unaryCall_eq, h0]
    simp only [if_pos hc₀, hlive, h1]
    exact ⟨rfl, rfl⟩
  · intro c h0 hc
    rw [unaryCall_eq, h0]
    simp only [if_neg hc]

/-- Witness for C6: every attempt fails with Internal and the deadline never
passes; a first attempt failing with NotFound is not retried. -/
theorem unaryCall_attempts_witness :
    ((Client.unaryCall (fun _ => some codes.Internal) (fun _ => false)).1 = 2 ∧
      (Client.unaryCall (fun _ => some codes.Internal) (fun _ => false)).2
        = some codes.Internal) ∧
    Client.unaryCall (fun _ => some codes.NotFound) (fun _ => false)
      = (1, some codes.NotFound) :=
  ⟨(unaryCall_attempts (fun _ => some codes.Internal) (fun _ => false)).1
      (fun _ => ⟨codes.Internal, rfl, by decide⟩) rfl,
   (unaryCall_attempts (fun _ => some codes.NotFound) (fun _ => false)).2
      codes.NotFound rfl (by decide)⟩

/-- C7, counterexample: when the handler faults, the tracing interceptor, which
the chain places inside the recovery interceptor, sees the fault itself and
not an error. -/
theorem serverTracing_sees_fault :
    (runGrpcServer.unaryInterceptor (fun log => (log, Outcome.fault "boom")) []).1.lookup
      InterceptorName.ServerTracing = some (Outcome.fault "boom") := by
  decide

/-- C7, amended: for every fault raised by the handler, the recovery
interceptor turns the fault into an internal error before the two logging
interceptors, which precede it in the chain, see the outcome: AccessLog and
ErrorLog each see the error and the call returns it, while ServerTracing,
which follows Recovery in the chain and so runs inside it, sees the fault. -/
theorem unaryInterceptor_fault (handler : UnaryHandler)
    (log log' : List (InterceptorName × Outcome)) (what : String)
    (hf : handler log = (log', Outcome.fault what)) :
    runGrpcServer.unaryInterceptor handler log =
      (log' ++ [(InterceptorName.ServerTracing, Outcome.fault what),
                (InterceptorName.Recovery, Outcome.fault what),
                (InterceptorName.ErrorLog, Outcome.error codes.Internal),
                (InterceptorName.AccessLog, Outcome.error codes.Internal)],
       Outcome.error codes.Internal) := by
  simp [runGrpcServer.unaryInterceptor, ChainUnaryServer, AccessLog, ErrorLog, Recovery,
    ServerTracing, observe, hf]

/-- Witness for C7: a handler that faults at once, on the empty record. -/
theorem unaryInterceptor_fault_witness :
    runGrpcServer.unaryInterceptor (fun log => (log, Outcome.fault "boom")) [] =
      ([] ++ [(InterceptorName.ServerTracing, Outcome.fault "boom"),
                (InterceptorName.Recovery, Outcome.fault "boom"),
                (InterceptorName.ErrorLog, Outcome.error codes.Internal),
                (InterceptorName.AccessLog, Outcome.error codes.Internal)],
       Outcome.error codes.Internal) :=
  unaryInterceptor_fault (fun log => (log, Outcome.fault "boom")) [] [] "boom" rfl

/-- C8: `GetTagList` returns exactly one of a reply and an error: the fixed
error for `ErrorGetTagListFail` and no reply when the downstream call fails,
whatever its error; the fixed error for `Fail` and no reply when the body does
not decode; and otherwise the decoded reply with a nil error. -/
theorem GetTagList_result {Reply Errcode : Type} (deps : TagDeps Reply Errcode)
    (r : Option GetTagListRequest) :
    (∀ e, deps.apiGetTagList (GetTagListRequest.GetName r) = Except.error e →
      GetTagList deps r = (none, some (deps.TogRPCError deps.ErrorGetTagListFail))) ∧
    (∀ body e, deps.apiGetTagList (GetTagListRequest.GetName r) = Except.ok body →
      deps.jsonUnmarshal body = Except.error e →
      GetTagList deps r = (none, some (deps.TogRPCError deps.Fail))) ∧
    (∀ body reply, deps.apiGetTagList (GetTagListRequest.GetName r) = Except.ok body →
      deps.jsonUnmarshal body = Except.ok reply →
      GetTagList deps r = (some reply, none)) ∧
    ((GetTagList deps r).1.isSome = true ∧ (GetTagList deps r).2.isSome = false ∨
     (GetTagList deps r).1.isSome = false ∧ (GetTagList deps r).2.isSome = true) := by
  refine ⟨?_, ?_, ?_, ?_⟩
  · intro e h
    simp [GetTagList, h]
  · intro body e h h'
    simp [GetTagList, h, h']
  · intro body reply h h'
    simp [GetTagList, h, h']
  · cases h : deps.apiGetTagList (GetTagListRequest.GetName r) with
    | error e => simp [GetTagList, h]
    | ok body =>
      cases h' : deps.jsonUnmarshal body with
      | error e => simp [GetTagList, h, h']
      | ok reply => simp [GetTagList, h, h']

/-- Witness for C8: the three paths of `GetTagList` on concrete requests. -/
theorem GetTagList_result_witness :
    GetTagList witnessDeps (some ⟨"down"⟩)
      = (none, some (witnessDeps.TogRPCError witnessDeps.ErrorGetTagListFail)) ∧
    GetTagList witnessDeps (some ⟨"bad"⟩)
      = (none, some (witnessDeps.TogRPCError witnessDeps.Fail)) ∧
    GetTagList witnessDeps (some ⟨"go"⟩) = (some "go", none) :=
  ⟨(GetTagList_result witnessDeps (some ⟨"down"⟩)).1 (GoError.plain "connection refused") rfl,
   (GetTagList_result witnessDeps (some ⟨"bad"⟩)).2.1 "bad"
      (GoError.plain "unexpected end of JSON input") rfl rfl,
   (GetTagList_result witnessDeps (some ⟨"go"⟩)).2.2.1 "go" "go" rfl rfl⟩

/-- C9, counterexample: the store client is created and the registration does
not reach the store; `RunServer` starts listening all the same. -/
theorem RunServer_listens_unregistered :
    (RunServer ⟨Except.ok (), false, GoError.plain "server closed"⟩ "8004").1 =
      [Event.register "/etcdv3://gp-programming-tour/grpc/tag-service" ":8004" 60 false,
       Event.listenAndServe ":8004", Event.closeClient] := by
  decide

/-- C9, amended: when the store client cannot be created, `RunServer` returns
that error and does not start listening; once the client is created it
registers and starts listening whether or not the registration succeeds, the
outcome of the registration being neither checked nor returned. -/
theorem RunServer_registration (env : ServerEnv) (port : String) :
    (∀ err, env.clientv3New = Except.error err →
      RunServer env port = ([], err) ∧ (RunServer env port).1.any Event.isListen = false) ∧
    (env.clientv3New = Except.ok () →
      RunServer env port =
        ([Event.register (registerTarget SERVICE_NAME) (":" ++ port) 60 env.registerSucceeds,
          Event.listenAndServe (":" ++ port), Event.closeClient], env.listenAndServe) ∧
      (RunServer env port).1.any Event.isListen = true) := by
  constructor
  · intro err h
    simp [RunServer, h]
  · intro h
    simp [RunServer, h, Event.isListen]

/-- Witness for C9: the store cannot be reached, and the store is reached. -/
theorem RunServer_registration_witness :
    (RunServer ⟨Except.error (GoError.plain "context deadline exceeded"), false,
        GoError.plain "server closed"⟩ "8004"
      = ([], GoError.plain "context deadline exceeded")) ∧
    (RunServer ⟨Except.ok (), true, GoError.plain "server closed"⟩ "8004").1.any Event.isListen
      = true :=
  ⟨((RunServer_registration ⟨Except.error (GoError.plain "context deadline exceeded"), false,
        GoError.plain "server closed"⟩ "8004").1 (GoError.plain "context deadline exceeded") rfl).1,
   ((RunServer_registration ⟨Except.ok (), true, GoError.plain "server closed"⟩ "8004").2 rfl).2⟩

theorem sprintf_target (n : String) :
    Sprintf "/etcdv3://gp-programming-tour/grpc/%s" [n]
      = keyLayout "etcdv3://gp-programming-tour" n := by
  apply String.ext
  simp [Sprintf, sprintfChars, keyLayout]

/-- C10: for every service name the server side and the client side build the
same target, the key layout filled with the namespace
`etcdv3://gp-programming-tour` and the service name in the last place; the
target the client resolves for `tag-service` is the one `RunServer` registers
for `SERVICE_NAME`. -/
theorem target_agreement (n : String) :
    registerTarget n = Client311.target n ∧
    Client311.target n = keyLayout "etcdv3://gp-programming-tour" n ∧
    Client311.target n = "/etcdv3://gp-programming-tour/grpc/" ++ n ∧
    Client311.GetClientConn (Except.ok ()) n = Except.ok (registerTarget n) ∧
    Client311.target "tag-service" = registerTarget SERVICE_NAME ∧
    (∀ (b : Bool) (e : GoError) (port : String),
      (RunServer ⟨Except.ok (), b, e⟩ port).1.head? =
        some (Event.register (Client311.target "tag-service") (":" ++ port) 60 b)) := by
  refine ⟨rfl, ?_, ?_, rfl, rfl, ?_⟩
  · exact sprintf_target n
  · rw [Client311.target, sprintf_target]
    apply String.ext
    simp [keyLayout]
  · intro b e port
    rfl

end TagService
